import Mathlib

/-!
Shallow embedding of the bearer-token authentication subsystem of
`src/backend/auth.py` (Azure AD JWT verification with a TTL-cached JWKS
key set), together with theorems settling the specification claims.

Conventions of the embedding:
* time is a natural number of seconds (`time.time()` becomes an explicit
  `now : Nat` argument);
* the network is a function `net : Nat → FetchResult` giving the outcome
  of the n-th HTTP fetch of the key-publication endpoint performed during
  the run; a counter of performed fetches is threaded through;
* the module-level mutable `_signing_keys_cache` dict becomes an explicit
  `CacheState` value threaded in and out of each function;
* Python exceptions become an error type `PyExc`; `raise` inside the
  `try` block of `verify_token` becomes an `Except.error` that the
  embedded `except` clauses translate, exactly as the handlers at the end
  of `verify_token` do.
-/

namespace Auth

/-- One key record of the published JWKS document: its `kid` field, its
declared `alg` field, and opaque public-key material (a number standing
for the RSA public key). Fields may be absent in the JSON, hence the
options. -/
structure SigningKey where
  kid : Option String
  alg : Option String
  material : Nat
deriving DecidableEq, Repr

/-- The JWKS JSON document, as used by the code: `jwks.get("keys", [])`
reads the list of key records. -/
structure JWKS where
  keys : List SigningKey
deriving DecidableEq, Repr

/-- Outcome of one HTTP GET of the JWKS endpoint: either a parsed JSON
key-set document, or a `requests.RequestException` (transport failure or
non-2xx via `raise_for_status`). -/
inductive FetchResult where
  | success (jwks : JWKS)
  | failure
deriving DecidableEq, Repr

/-- The module-level `_signing_keys_cache = {"keys": None, "expires_at": 0}`.
`keys` is `none` when the cache holds `None` (initial state, or after the
explicit invalidation in `verify_token`); a fetched JWKS document
`{"keys": [...]}` is a nonempty Python dict, hence truthy, so Python
truthiness of the cached value coincides with `Option.isSome` here. -/
structure CacheState where
  keys : Option JWKS
  expires_at : Nat
deriving DecidableEq, Repr

/-- Python exceptions relevant to `verify_token`: `fastapi.HTTPException`
with a status code and detail string, `jose.JWTError` (and its
subclasses, e.g. ExpiredSignatureError, JWTClaimsError), and any other
exception. -/
inductive PyExc where
  | httpExc (status : Nat) (detail : String)
  | jwtError (msg : String)
  | otherExc (msg : String)
deriving DecidableEq, Repr

/-- CACHE_TTL = 3600 (1 hour in seconds). -/
def CACHE_TTL : Nat := 3600

/-- Environment configuration: `AZURE_TENANT_ID` and `AZURE_CLIENT_ID`
read by `os.getenv` (absent → `None`). -/
structure Config where
  tenant : Option String
  client : Option String
deriving DecidableEq, Repr

/-- Python truthiness of an `os.getenv` result: `None` and the empty
string are falsy. -/
def optTruthy : Option String → Bool
  | none => false
  | some s => s ≠ ""

/-- Python `f"...{x}..."` rendering of a possibly-`None` variable. -/
def pyStr : Option String → String
  | none => "None"
  | some s => s

/-- ISSUER_V1 = f"https://sts.windows.net/\x7bAZURE_TENANT_ID\x7d/". -/
def ISSUER_V1 (cfg : Config) : String :=
  "https://sts.windows.net/" ++ pyStr cfg.tenant ++ "/"

/-- ISSUER_V2 = f"https://login.microsoftonline.com/\x7bAZURE_TENANT_ID\x7d/v2.0". -/
def ISSUER_V2 (cfg : Config) : String :=
  "https://login.microsoftonline.com/" ++ pyStr cfg.tenant ++ "/v2.0"

/-- AUDIENCE = f"api://\x7bAZURE_CLIENT_ID\x7d". -/
def AUDIENCE (cfg : Config) : String :=
  "api://" ++ pyStr cfg.client

/-- get_signing_keys: returns the cached key set if it is truthy and
`current_time < expires_at`; otherwise fetches, and on success replaces
the cached set and expiry together and returns the fresh set, while on a
`RequestException` it raises `HTTPException(503, "Service unavailable -
unable to fetch signing keys")`, leaving the cache as it was. The result
triple is (outcome, cache state after the call, fetch count after the
call). `fetchKeys` is the body of the `try` block of `get_signing_keys`
(lines 67-84 of auth.py): one network fetch, cache update on success,
the 503 `HTTPException` on `RequestException`. -/
def fetchKeys (now : Nat) (net : Nat → FetchResult) (st : CacheState)
    (fc : Nat) : Except PyExc JWKS × CacheState × Nat :=
  match net fc with
  | .success fresh =>
      (.ok fresh, ⟨some fresh, now + CACHE_TTL⟩, fc + 1)
  | .failure =>
      (.error (.httpExc 503 "Service unavailable - unable to fetch signing keys"),
        st, fc + 1)

def get_signing_keys (now : Nat) (net : Nat → FetchResult) (st : CacheState)
    (fc : Nat) : Except PyExc JWKS × CacheState × Nat :=
  match st.keys with
  | some ks =>
      if now < st.expires_at then (.ok ks, st, fc)
      else fetchKeys now net st fc
  | none => fetchKeys now net st fc

/-- JOSE header of a well-formed token: `kid` (may be absent) and `alg`. -/
structure TokenHeader where
  kid : Option String
  alg : String
deriving DecidableEq, Repr

/-- Claim set of a well-formed token: `iss`, `aud` (absent fields are
`none`), `exp` as seconds, and the remaining claims passed through
opaquely as a key-value list. -/
structure TokenPayload where
  iss : Option String
  aud : Option String
  exp : Nat
  extra : List (String × String)
deriving DecidableEq, Repr

/-- A raw token string as the jose library sees it: either not parseable
as a JWT at all (header or payload segment undecodable — jose raises a
`JWTError`), or well formed with a header, a payload, and signing
material `signedBy` identifying the private key that produced the
signature (signature checking against a public key compares this to the
key's material). -/
inductive Token where
  | malformed
  | wellFormed (header : TokenHeader) (payload : TokenPayload) (signedBy : Nat)
deriving DecidableEq, Repr

/-- jwt.get_unverified_header: parses the header segment without any
signature check; a non-parseable token raises `JWTError`. -/
def get_unverified_header : Token → Except PyExc TokenHeader
  | .malformed => .error (.jwtError "Error decoding token headers.")
  | .wellFormed h _ _ => .ok h

/-- Signature validity of a token against a public key record: the token
was produced by the private counterpart of the key's material. -/
def sigValid (signedBy : Nat) (key : SigningKey) : Bool :=
  signedBy == key.material

/-- Algorithm that jose's signature verification applies: it is read
from the token's header and required to be a member of the `algorithms`
allowlist argument; the key record's own `alg` field is not consulted. -/
def joseAlgUsed (hdrAlg : String) (algorithms : List String) : Option String :=
  if hdrAlg ∈ algorithms then some hdrAlg else none

/-- jwt.decode with options verify_signature=False, verify_exp=False,
verify_aud=False and no issuer/audience arguments (auth.py line 155):
returns the payload of any well-formed token without consulting the key,
the allowlist, the clock, or any claim; a non-parseable token raises
`JWTError`. -/
def joseUnverifiedDecode : Token → Except PyExc TokenPayload
  | .malformed => .error (.jwtError "Error decoding token ")
  | .wellFormed _ p _ => .ok p

/-- jwt.decode with verify_signature=True and verify_exp=True, an
`audience` and an `issuer` argument (auth.py line 182): requires the
header algorithm to be in the allowlist, verifies the signature with
that algorithm against the given key, then checks expiry against the
clock, the `aud` claim against `audience`, and the `iss` claim against
`issuer`. Every failure raises a subclass of `JWTError`. -/
def joseVerifiedDecode (tok : Token) (key : SigningKey)
    (algorithms : List String) (audience issuer : String) (now : Nat) :
    Except PyExc TokenPayload :=
  match tok with
  | .malformed => .error (.jwtError "Error decoding token ")
  | .wellFormed hdr p signedBy =>
      match joseAlgUsed hdr.alg algorithms with
      | none => .error (.jwtError "The specified alg value is not allowed")
      | some _ =>
          if ¬ sigValid signedBy key then
            .error (.jwtError "Signature verification failed.")
          else if p.exp < now then
            .error (.jwtError "Signature has expired.")
          else if p.aud ≠ some audience then
            .error (.jwtError "Invalid audience")
          else if p.iss ≠ some issuer then
            .error (.jwtError "Invalid issuer")
          else
            .ok p

/-- The key-selection loop of verify_token (auth.py lines 129-133 and
142-145): scan `jwks.get("keys", [])` for the first record whose `kid`
field equals the token's `key_id`. -/
def findKey (keys : List SigningKey) (kid : String) : Option SigningKey :=
  keys.find? (fun k => k.kid == some kid)

/-- Key lookup with the one-shot refresh fallback of verify_token
(auth.py lines 128-152): scan the current set; if the key is not found,
set the cache to `\x7b"keys": None, "expires_at": 0\x7d` and call
`get_signing_keys` again (which now necessarily fetches), scan the fresh
set, and if the key is still missing raise
`HTTPException(401, "Invalid token signature")`. -/
def lookupSigningKey (kid : String) (now : Nat) (net : Nat → FetchResult)
    (jwks : JWKS) (st : CacheState) (fc : Nat) :
    Except PyExc SigningKey × CacheState × Nat :=
  match findKey jwks.keys kid with
  | some k => (.ok k, st, fc)
  | none =>
      match get_signing_keys now net ⟨none, 0⟩ fc with
      | (.error e, st2, fc2) => (.error e, st2, fc2)
      | (.ok jwks2, st2, fc2) =>
          match findKey jwks2.keys kid with
          | some k => (.ok k, st2, fc2)
          | none => (.error (.httpExc 401 "Invalid token signature"), st2, fc2)

/-- Issuer selection of verify_token (auth.py lines 162-173): the
unverified `iss` claim must equal ISSUER_V1 or ISSUER_V2 exactly; any
other value raises `HTTPException(401, "Invalid token issuer")`. -/
def issuerSelect (cfg : Config) (tokenIssuer : Option String) :
    Except PyExc String :=
  if tokenIssuer = some (ISSUER_V1 cfg) then .ok (ISSUER_V1 cfg)
  else if tokenIssuer = some (ISSUER_V2 cfg) then .ok (ISSUER_V2 cfg)
  else .error (.httpExc 401 "Invalid token issuer")

/-- Body of the `try` block of verify_token (auth.py lines 113-192):
get the key set, parse the unverified header, require a truthy `kid`,
look up the signing key (with the one-shot refresh), decode unverified
to read `iss`, select the enforced issuer, then perform the full
verified decode with algorithms=["RS256"], the configured audience and
the selected issuer. -/
def verify_token_body (cfg : Config) (tok : Token) (now : Nat)
    (net : Nat → FetchResult) (st : CacheState) (fc : Nat) :
    Except PyExc TokenPayload × CacheState × Nat :=
  match get_signing_keys now net st fc with
  | (.error e, st1, fc1) => (.error e, st1, fc1)
  | (.ok jwks, st1, fc1) =>
      match get_unverified_header tok with
      | .error e => (.error e, st1, fc1)
      | .ok hdr =>
          if ¬ optTruthy hdr.kid then
            (.error (.httpExc 401 "Invalid token format"), st1, fc1)
          else
            match lookupSigningKey (pyStr hdr.kid) now net jwks st1 fc1 with
            | (.error e, st2, fc2) => (.error e, st2, fc2)
            | (.ok signing_key, st2, fc2) =>
                match joseUnverifiedDecode tok with
                | .error e => (.error e, st2, fc2)
                | .ok up =>
                    match issuerSelect cfg up.iss with
                    | .error e => (.error e, st2, fc2)
                    | .ok expected_issuer =>
                        match joseVerifiedDecode tok signing_key ["RS256"]
                            (AUDIENCE cfg) expected_issuer now with
                        | .error e => (.error e, st2, fc2)
                        | .ok payload => (.ok payload, st2, fc2)

/-- The `except` clauses of verify_token (auth.py lines 194-205): a
`JWTError` becomes `HTTPException(401, "Invalid or expired token")`; any
other exception raised inside the `try` block — `fastapi.HTTPException`
included, since it is an `Exception` subclass and not a `JWTError` —
becomes `HTTPException(401, "Authentication failed")`. -/
def exceptClauses : PyExc → PyExc
  | .jwtError _ => .httpExc 401 "Invalid or expired token"
  | _ => .httpExc 401 "Authentication failed"

/-- verify_token (auth.py lines 87-205): the configuration check before
the `try` block (500 on missing tenant/client, no network touched), then
the body with its `except` clauses. The fetch counter of a verification
attempt starts at 0. -/
def verify_token (cfg : Config) (tok : Token) (now : Nat)
    (net : Nat → FetchResult) (st : CacheState) :
    Except PyExc TokenPayload × CacheState × Nat :=
  if ¬ optTruthy cfg.tenant ∨ ¬ optTruthy cfg.client then
    (.error (.httpExc 500 "Server configuration error - Azure AD not configured"),
      st, 0)
  else
    match verify_token_body cfg tok now net st 0 with
    | (.ok p, st1, fc1) => (.ok p, st1, fc1)
    | (.error e, st1, fc1) => (.error (exceptClauses e), st1, fc1)

/-! Concrete fixtures used by witnesses and counterexamples: tenant `t1`,
client `c1`, one published key `K1`, and a token signed by `K1` for the
v1 issuer and audience `api://c1`. -/

def cfgW : Config := ⟨some "t1", some "c1"⟩

def keyW : SigningKey := ⟨some "K1", some "RS256", 7⟩

def jwksW : JWKS := ⟨[keyW]⟩

def netW : Nat → FetchResult := fun _ => .success jwksW

def netFailW : Nat → FetchResult := fun _ => .failure

def plW : TokenPayload := ⟨some (ISSUER_V1 cfgW), some (AUDIENCE cfgW), 5000, []⟩

def tokW : Token := .wellFormed ⟨some "K1", "RS256"⟩ plW 7

def stEmptyW : CacheState := ⟨none, 0⟩

def stFreshW : CacheState := ⟨some jwksW, 4000⟩

def plBadIssW : TokenPayload := ⟨some "https://evil.example/", some (AUDIENCE cfgW), 5000, []⟩

def keyRS512W : SigningKey := ⟨some "K1", some "RS512", 7⟩

def jwksRS512W : JWKS := ⟨[keyRS512W]⟩

def jwks2W : JWKS := ⟨[⟨some "K2", some "RS256", 9⟩]⟩

def tok2W : Token :=
  .wellFormed ⟨some "K2", "RS256"⟩ ⟨some (ISSUER_V2 cfgW), some (AUDIENCE cfgW), 5000, []⟩ 9

end Auth

namespace Auth

/-- Helper: a `get` on a truthy cache strictly before its expiry is a
pure cache hit — same set, same state, no fetch. -/
theorem get_signing_keys_cache_hit (now : Nat) (net : Nat → FetchResult)
    (jwks : JWKS) (expiry fc : Nat) (h : now < expiry) :
    get_signing_keys now net ⟨some jwks, expiry⟩ fc
      = (.ok jwks, ⟨some jwks, expiry⟩, fc) := by
  have hred : get_signing_keys now net ⟨some jwks, expiry⟩ fc
      = if now < expiry then
          ((.ok jwks, ⟨some jwks, expiry⟩, fc) : Except PyExc JWKS × CacheState × Nat)
        else fetchKeys now net ⟨some jwks, expiry⟩ fc := rfl
  rw [hred, if_pos h]

/-- Helper: a `get` on the invalidated cache always fetches; on success
it installs the fresh set with expiry now + TTL and counts one fetch. -/
theorem get_signing_keys_invalidated (now : Nat) (net : Nat → FetchResult)
    (fc : Nat) (jwks2 : JWKS) (hnet : net fc = .success jwks2) :
    get_signing_keys now net ⟨none, 0⟩ fc
      = (.ok jwks2, ⟨some jwks2, now + CACHE_TTL⟩, fc + 1) := by
  show fetchKeys now net ⟨none, 0⟩ fc = _
  unfold fetchKeys
  rw [hnet]

/-- Helper: an accepted unverified issuer selects an expected issuer
equal to itself. -/
theorem issuerSelect_accepted (cfg : Config) (iss : Option String)
    (h : iss = some (ISSUER_V1 cfg) ∨ iss = some (ISSUER_V2 cfg)) :
    ∃ e, issuerSelect cfg iss = .ok e ∧ iss = some e := by
  unfold issuerSelect
  by_cases h1 : iss = some (ISSUER_V1 cfg)
  · exact ⟨_, by rw [if_pos h1], h1⟩
  · rcases h with h | h2
    · exact absurd h h1
    · exact ⟨_, by rw [if_neg h1, if_pos h2], h2⟩

/-- C7: if the tenant identifier or the client identifier is unset (or
empty, Python-falsy), verify_token returns the 500 configuration error
with its original detail, the cache is untouched, and the fetch count is
0 — no network fetch is attempted, and no token is ever accepted. -/
theorem config_missing_fail_closed (cfg : Config) (tok : Token) (now : Nat)
    (net : Nat → FetchResult) (st : CacheState)
    (h : ¬ optTruthy cfg.tenant ∨ ¬ optTruthy cfg.client) :
    verify_token cfg tok now net st
      = (.error (.httpExc 500 "Server configuration error - Azure AD not configured"),
          st, 0) := by
  unfold verify_token
  rw [if_pos h]

theorem config_missing_fail_closed_witness :
    verify_token ⟨none, some "c1"⟩ tokW 1000 netW stEmptyW
      = (.error (.httpExc 500 "Server configuration error - Azure AD not configured"),
          stEmptyW, 0) :=
  config_missing_fail_closed ⟨none, some "c1"⟩ tokW 1000 netW stEmptyW
    (Or.inl (by decide))

/-- C1: code-bug evidence. `get_signing_keys` does raise the intended
503 service-unavailable `HTTPException` on a fetch failure, but
`verify_token`'s final blanket `except Exception` handler catches that
very exception (it is not a `JWTError`) and re-raises it as
`HTTPException(401, "Authentication failed")`: the fetch failure is
relabelled, and callers of `verify_token` never observe a 503. -/
theorem fetch_failure_relabelled :
    (get_signing_keys 1000 netFailW stEmptyW 0).1
        = .error (.httpExc 503 "Service unavailable - unable to fetch signing keys")
    ∧ verify_token cfgW tokW 1000 netFailW stEmptyW
        = (.error (.httpExc 401 "Authentication failed"), stEmptyW, 1) :=
  ⟨rfl, rfl⟩

/-- C5: cache freshness. A successful fetch at time T (on an invalidated
or never-filled cache) installs the fetched set with expiry T + 3600;
every `get` strictly before T + 3600 returns that set with no new fetch
and no state change; the first `get` at or after T + 3600 fetches anew
and replaces the cached set and its expiry together. -/
theorem cache_ttl_freshness (T now fc : Nat) (net : Nat → FetchResult)
    (st : CacheState) (ks ks2 : JWKS) :
    (st.keys = none → net fc = .success ks →
       get_signing_keys T net st fc = (.ok ks, ⟨some ks, T + CACHE_TTL⟩, fc + 1))
    ∧ (now < T + CACHE_TTL →
       get_signing_keys now net ⟨some ks, T + CACHE_TTL⟩ fc
         = (.ok ks, ⟨some ks, T + CACHE_TTL⟩, fc))
    ∧ (T + CACHE_TTL ≤ now → net fc = .success ks2 →
       get_signing_keys now net ⟨some ks, T + CACHE_TTL⟩ fc
         = (.ok ks2, ⟨some ks2, now + CACHE_TTL⟩, fc + 1)) := by
  refine ⟨fun hnone hnet => ?_, fun hlt => ?_, fun hge hnet => ?_⟩
  · unfold get_signing_keys
    rw [hnone]
    unfold fetchKeys
    rw [hnet]
  · unfold get_signing_keys
    simp [hlt]
  · have hred : get_signing_keys now net ⟨some ks, T + CACHE_TTL⟩ fc
        = if now < T + CACHE_TTL then
            ((.ok ks, ⟨some ks, T + CACHE_TTL⟩, fc) : Except PyExc JWKS × CacheState × Nat)
          else fetchKeys now net ⟨some ks, T + CACHE_TTL⟩ fc := rfl
    rw [hred, if_neg (Nat.not_lt.mpr hge)]
    unfold fetchKeys
    rw [hnet]

theorem cache_ttl_freshness_witness :
    get_signing_keys 1000 netW stEmptyW 0 = (.ok jwksW, ⟨some jwksW, 4600⟩, 1)
    ∧ get_signing_keys 2000 netW ⟨some jwksW, 4600⟩ 1
        = (.ok jwksW, ⟨some jwksW, 4600⟩, 1)
    ∧ get_signing_keys 4600 netW ⟨some jwksW, 4600⟩ 1
        = (.ok jwksW, ⟨some jwksW, 8200⟩, 2) :=
  ⟨(cache_ttl_freshness 1000 2000 0 netW stEmptyW jwksW jwksW).1 rfl rfl,
   (cache_ttl_freshness 1000 2000 1 netW stEmptyW jwksW jwksW).2.1 (by decide),
   (cache_ttl_freshness 1000 4600 1 netW stEmptyW jwksW jwksW).2.2 (by decide) rfl⟩

/-- C3: for a token whose `kid` is in no fetched key set — not in the
fresh cached set, nor in the set obtained by the forced refresh — the
verifier invalidates the cache, refetches exactly once (final fetch
count 1, fresh set installed), and rejects with the UnknownSigningKey
rejection `HTTPException(401, "Invalid token signature")`, which the
outer handler surfaces as 401 "Authentication failed"; no further
refresh occurs (only `net 0` is ever consulted). -/
theorem unknown_kid_single_refresh (cfg : Config) (hdr : TokenHeader)
    (pl : TokenPayload) (sb : Nat) (jwks jwks2 : JWKS) (expiry now : Nat)
    (net : Nat → FetchResult)
    (hT : optTruthy cfg.tenant) (hC : optTruthy cfg.client)
    (hkid : optTruthy hdr.kid)
    (hfresh : now < expiry)
    (hmiss1 : findKey jwks.keys (pyStr hdr.kid) = none)
    (hnet : net 0 = .success jwks2)
    (hmiss2 : findKey jwks2.keys (pyStr hdr.kid) = none) :
    verify_token_body cfg (.wellFormed hdr pl sb) now net ⟨some jwks, expiry⟩ 0
        = (.error (.httpExc 401 "Invalid token signature"),
            ⟨some jwks2, now + CACHE_TTL⟩, 1)
    ∧ verify_token cfg (.wellFormed hdr pl sb) now net ⟨some jwks, expiry⟩
        = (.error (.httpExc 401 "Authentication failed"),
            ⟨some jwks2, now + CACHE_TTL⟩, 1) := by
  have hget := get_signing_keys_cache_hit now net jwks expiry 0 hfresh
  have hget2 := get_signing_keys_invalidated now net 0 jwks2 hnet
  have hbody : verify_token_body cfg (.wellFormed hdr pl sb) now net ⟨some jwks, expiry⟩ 0
      = (.error (.httpExc 401 "Invalid token signature"),
          ⟨some jwks2, now + CACHE_TTL⟩, 1) := by
    unfold verify_token_body
    rw [hget]
    unfold lookupSigningKey
    simp [get_unverified_header, hkid, hmiss1, hget2, hmiss2]
  refine ⟨hbody, ?_⟩
  unfold verify_token
  rw [if_neg (by simp [hT, hC]), hbody]
  rfl

theorem unknown_kid_single_refresh_witness :
    verify_token_body cfgW (.wellFormed ⟨some "K2", "RS256"⟩ plW 7) 1000 netW stFreshW 0
        = (.error (.httpExc 401 "Invalid token signature"), ⟨some jwksW, 4600⟩, 1)
    ∧ verify_token cfgW (.wellFormed ⟨some "K2", "RS256"⟩ plW 7) 1000 netW stFreshW
        = (.error (.httpExc 401 "Authentication failed"), ⟨some jwksW, 4600⟩, 1) :=
  unknown_kid_single_refresh cfgW ⟨some "K2", "RS256"⟩ plW 7 jwksW jwksW 4000 1000 netW
    (by decide) (by decide) (by decide) (by decide) rfl rfl rfl

/-- C4: for a token whose `kid` is absent from the fresh cached set but
present in the set obtained by the forced refresh, the verifier makes
exactly one refresh fetch (final fetch count 1) and proceeds to full
validation, succeeding when the signature, issuer, audience and expiry
are valid. -/
theorem rotated_kid_refresh_success (cfg : Config) (hdr : TokenHeader)
    (pl : TokenPayload) (sb : Nat) (key : SigningKey) (jwks jwks2 : JWKS)
    (expiry now : Nat) (net : Nat → FetchResult)
    (hT : optTruthy cfg.tenant) (hC : optTruthy cfg.client)
    (hkid : optTruthy hdr.kid) (hfresh : now < expiry)
    (hmiss : findKey jwks.keys (pyStr hdr.kid) = none)
    (hnet : net 0 = .success jwks2)
    (hfound : findKey jwks2.keys (pyStr hdr.kid) = some key)
    (halg : hdr.alg = "RS256") (hsig : sigValid sb key)
    (hiss : pl.iss = some (ISSUER_V1 cfg) ∨ pl.iss = some (ISSUER_V2 cfg))
    (hexp : ¬ pl.exp < now) (haud : pl.aud = some (AUDIENCE cfg)) :
    verify_token cfg (.wellFormed hdr pl sb) now net ⟨some jwks, expiry⟩
      = (.ok pl, ⟨some jwks2, now + CACHE_TTL⟩, 1) := by
  have hget := get_signing_keys_cache_hit now net jwks expiry 0 hfresh
  have hget2 := get_signing_keys_invalidated now net 0 jwks2 hnet
  obtain ⟨e, hsel, hisse⟩ := issuerSelect_accepted cfg pl.iss hiss
  have hdec : joseVerifiedDecode (.wellFormed hdr pl sb) key ["RS256"]
      (AUDIENCE cfg) e now = .ok pl := by
    unfold joseVerifiedDecode
    simp [joseAlgUsed, halg, hsig, hexp, haud, hisse]
  have hbody : verify_token_body cfg (.wellFormed hdr pl sb) now net ⟨some jwks, expiry⟩ 0
      = (.ok pl, ⟨some jwks2, now + CACHE_TTL⟩, 1) := by
    unfold verify_token_body
    rw [hget]
    unfold lookupSigningKey
    simp [get_unverified_header, hkid, hmiss, hget2, hfound,
      joseUnverifiedDecode, hsel, hdec]
  unfold verify_token
  rw [if_neg (by simp [hT, hC]), hbody]

theorem rotated_kid_refresh_success_witness :
    verify_token cfgW tok2W 1000 (fun _ => .success jwks2W) stFreshW
      = (.ok ⟨some (ISSUER_V2 cfgW), some (AUDIENCE cfgW), 5000, []⟩,
          ⟨some jwks2W, 4600⟩, 1) :=
  rotated_kid_refresh_success cfgW ⟨some "K2", "RS256"⟩
    ⟨some (ISSUER_V2 cfgW), some (AUDIENCE cfgW), 5000, []⟩ 9
    ⟨some "K2", some "RS256", 9⟩ jwksW jwks2W 4000 1000 (fun _ => .success jwks2W)
    (by decide) (by decide) (by decide) (by decide) rfl rfl rfl rfl (by decide)
    (Or.inr rfl) (by decide) rfl

/-- C2: issuer gate. In a context where the token is well formed, its
`kid` is truthy and resolves to a key in the fresh cached set: (a) if
the unverified `iss` claim equals the configured v1 or v2 issuer string
and the signature, audience and expiry are valid, verification succeeds
with the token's payload; (b) if the `iss` claim is any other value,
the body rejects with the UnknownIssuer rejection
`HTTPException(401, "Invalid token issuer")` for every signature value
`sb2` and every key material — no signature verification is attempted,
the outcome being independent of the signature — and no extra fetch
occurs (fetch count stays 0). -/
theorem issuer_gate (cfg : Config) (hdr : TokenHeader) (pl : TokenPayload)
    (sb : Nat) (key : SigningKey) (jwks : JWKS) (expiry now : Nat)
    (net : Nat → FetchResult)
    (hT : optTruthy cfg.tenant) (hC : optTruthy cfg.client)
    (hkid : optTruthy hdr.kid) (hfresh : now < expiry)
    (hfound : findKey jwks.keys (pyStr hdr.kid) = some key) :
    ((pl.iss = some (ISSUER_V1 cfg) ∨ pl.iss = some (ISSUER_V2 cfg)) →
       hdr.alg = "RS256" → sigValid sb key → ¬ pl.exp < now →
       pl.aud = some (AUDIENCE cfg) →
       verify_token cfg (.wellFormed hdr pl sb) now net ⟨some jwks, expiry⟩
         = (.ok pl, ⟨some jwks, expiry⟩, 0))
    ∧ (pl.iss ≠ some (ISSUER_V1 cfg) → pl.iss ≠ some (ISSUER_V2 cfg) →
       ∀ sb2 : Nat,
         verify_token_body cfg (.wellFormed hdr pl sb2) now net ⟨some jwks, expiry⟩ 0
           = (.error (.httpExc 401 "Invalid token issuer"), ⟨some jwks, expiry⟩, 0)) := by
  have hget := get_signing_keys_cache_hit now net jwks expiry 0 hfresh
  constructor
  · intro hiss halg hsig hexp haud
    obtain ⟨e, hsel, hisse⟩ := issuerSelect_accepted cfg pl.iss hiss
    have hdec : joseVerifiedDecode (.wellFormed hdr pl sb) key ["RS256"]
        (AUDIENCE cfg) e now = .ok pl := by
      unfold joseVerifiedDecode
      simp [joseAlgUsed, halg, hsig, hexp, haud, hisse]
    have hbody : verify_token_body cfg (.wellFormed hdr pl sb) now net
        ⟨some jwks, expiry⟩ 0 = (.ok pl, ⟨some jwks, expiry⟩, 0) := by
      unfold verify_token_body
      rw [hget]
      unfold lookupSigningKey
      simp [get_unverified_header, hkid, hfound, joseUnverifiedDecode, hsel, hdec]
    unfold verify_token
    rw [if_neg (by simp [hT, hC]), hbody]
  · intro hn1 hn2 sb2
    have hsel : issuerSelect cfg pl.iss = .error (.httpExc 401 "Invalid token issuer") := by
      unfold issuerSelect
      rw [if_neg hn1, if_neg hn2]
    unfold verify_token_body
    rw [hget]
    unfold lookupSigningKey
    simp [get_unverified_header, hkid, hfound, joseUnverifiedDecode, hsel]

theorem issuer_gate_witness :
    verify_token cfgW tokW 1000 netW stFreshW = (.ok plW, stFreshW, 0)
    ∧ verify_token_body cfgW (.wellFormed ⟨some "K1", "RS256"⟩ plBadIssW 7)
        1000 netW stFreshW 0
        = (.error (.httpExc 401 "Invalid token issuer"), stFreshW, 0) :=
  ⟨(issuer_gate cfgW ⟨some "K1", "RS256"⟩ plW 7 keyW jwksW 4000 1000 netW
      (by decide) (by decide) (by decide) (by decide) rfl).1
      (Or.inl rfl) rfl (by decide) (by decide) rfl,
   (issuer_gate cfgW ⟨some "K1", "RS256"⟩ plBadIssW 7 keyW jwksW 4000 1000 netW
      (by decide) (by decide) (by decide) (by decide) rfl).2
      (by decide) (by decide) 7⟩

/-- C8: counterexample. verify_token requests the key set (auth.py line
115) before parsing the header (line 118): on an empty cache, a token
with a parseable header but no `kid` — and likewise a token with no
parseable header — is rejected only after a network fetch of the key
set has already happened (final fetch count 1, cache populated), not
with zero key-set requests as the claim states. -/
theorem keyset_requested_before_header_cex :
    verify_token cfgW (.wellFormed ⟨none, "RS256"⟩ plW 7) 1000 netW stEmptyW
        = (.error (.httpExc 401 "Authentication failed"), ⟨some jwksW, 4600⟩, 1)
    ∧ (verify_token cfgW (.wellFormed ⟨none, "RS256"⟩ plW 7) 1000 netW stEmptyW).2.2 ≠ 0
    ∧ (verify_token cfgW .malformed 1000 netW stEmptyW).2.2 ≠ 0 :=
  ⟨rfl, by decide, by decide⟩

/-- C8 amended: in every verification attempt with valid configuration,
the key set is requested from the signing-key cache BEFORE the token's
header is parsed; a token with no parseable header is rejected via
`JWTError` (surfaced as 401 "Invalid or expired token") and a token
with a missing `kid` via `HTTPException(401, "Invalid token format")`
(surfaced as 401 "Authentication failed"), in both cases only after the
one key-set request, whose cache state and fetch count the rejection
carries. -/
theorem keyset_before_header (cfg : Config) (tok : Token) (now : Nat)
    (net : Nat → FetchResult) (st : CacheState)
    (hT : optTruthy cfg.tenant) (hC : optTruthy cfg.client)
    (jwks : JWKS) (st1 : CacheState) (fc1 : Nat)
    (hget : get_signing_keys now net st 0 = (.ok jwks, st1, fc1)) :
    (tok = .malformed →
       verify_token cfg tok now net st
         = (.error (.httpExc 401 "Invalid or expired token"), st1, fc1))
    ∧ (∀ hdr pl sb, tok = .wellFormed hdr pl sb → ¬ optTruthy hdr.kid →
       verify_token cfg tok now net st
         = (.error (.httpExc 401 "Authentication failed"), st1, fc1)) := by
  constructor
  · rintro rfl
    have hbody : verify_token_body cfg .malformed now net st 0
        = (.error (.jwtError "Error decoding token headers."), st1, fc1) := by
      unfold verify_token_body
      rw [hget]
      rfl
    unfold verify_token
    rw [if_neg (by simp [hT, hC]), hbody]
    rfl
  · rintro hdr pl sb rfl hk
    have hbody : verify_token_body cfg (.wellFormed hdr pl sb) now net st 0
        = (.error (.httpExc 401 "Invalid token format"), st1, fc1) := by
      unfold verify_token_body
      rw [hget]
      simp [get_unverified_header, hk]
    unfold verify_token
    rw [if_neg (by simp [hT, hC]), hbody]
    rfl

theorem keyset_before_header_witness :
    verify_token cfgW .malformed 1000 netW stEmptyW
      = (.error (.httpExc 401 "Invalid or expired token"), ⟨some jwksW, 4600⟩, 1)
    ∧ verify_token cfgW (.wellFormed ⟨none, "RS256"⟩ plW 7) 1000 netW stEmptyW
      = (.error (.httpExc 401 "Authentication failed"), ⟨some jwksW, 4600⟩, 1) :=
  ⟨(keyset_before_header cfgW .malformed 1000 netW stEmptyW (by decide) (by decide)
      jwksW ⟨some jwksW, 4600⟩ 1 rfl).1 rfl,
   (keyset_before_header cfgW (.wellFormed ⟨none, "RS256"⟩ plW 7) 1000 netW stEmptyW
      (by decide) (by decide) jwksW ⟨some jwksW, 4600⟩ 1 rfl).2
      ⟨none, "RS256"⟩ plW 7 rfl (by decide)⟩

/-- C9: counterexample. The full verified decode is called with the
hardcoded allowlist ["RS256"] (auth.py line 185), not with an algorithm
read from the matched key's material: a key whose material declares
"RS512" still verifies a token with header algorithm "RS256", and the
algorithm applied — `joseAlgUsed`, the header algorithm filtered by the
allowlist — differs from the key's declared algorithm. -/
theorem alg_not_from_key_material_cex :
    verify_token cfgW tokW 1000 (fun _ => .success jwksRS512W) stEmptyW
      = (.ok plW, ⟨some jwksRS512W, 4600⟩, 1)
    ∧ joseAlgUsed "RS256" ["RS256"] = some "RS256"
    ∧ keyRS512W.alg = some "RS512"
    ∧ joseAlgUsed "RS256" ["RS256"] ≠ keyRS512W.alg :=
  ⟨rfl, rfl, rfl, by decide⟩

/-- C9 amended: the signature-verification algorithm is the token
header's algorithm constrained to the hardcoded allowlist ["RS256"]:
every successful verified decode used exactly "RS256" (so the untrusted
header cannot smuggle in another algorithm), and the decode result is
entirely independent of the key material's declared `alg` field, which
is never consulted. -/
theorem alg_pinned_to_allowlist :
    (∀ tok key audience issuer now p,
       joseVerifiedDecode tok key ["RS256"] audience issuer now = .ok p →
       ∃ hdr sb, tok = .wellFormed hdr p sb ∧ hdr.alg = "RS256"
         ∧ joseAlgUsed hdr.alg ["RS256"] = some "RS256")
    ∧ (∀ hdr pl sb kid mat a1 a2 algorithms audience issuer now,
       joseVerifiedDecode (.wellFormed hdr pl sb) ⟨kid, a1, mat⟩ algorithms
           audience issuer now
         = joseVerifiedDecode (.wellFormed hdr pl sb) ⟨kid, a2, mat⟩ algorithms
             audience issuer now) := by
  constructor
  · intro tok key audience issuer now p h
    cases tok with
    | malformed => exact Except.noConfusion h
    | wellFormed hdr pl sb =>
      refine ⟨hdr, sb, ?_⟩
      cases halg : joseAlgUsed hdr.alg ["RS256"] with
      | none =>
        simp only [joseVerifiedDecode, halg] at h
        exact Except.noConfusion h
      | some a =>
        simp only [joseVerifiedDecode, halg] at h
        have ha : hdr.alg = "RS256" := by
          unfold joseAlgUsed at halg
          by_cases hm : hdr.alg ∈ ["RS256"]
          · simpa using hm
          · rw [if_neg hm] at halg; exact Option.noConfusion halg
        split_ifs at h
        all_goals
          first
            | exact Except.noConfusion h
            | (injection h with h'; subst h'; refine ⟨rfl, ha, ?_⟩;
               rw [ha] at halg; simpa [joseAlgUsed] using halg.symm)
  · intro hdr pl sb kid mat a1 a2 algorithms audience issuer now
    rfl

theorem alg_pinned_to_allowlist_witness :
    ∃ hdr sb, (Token.wellFormed ⟨some "K1", "RS256"⟩ plW 7 : Token)
        = .wellFormed hdr plW sb
      ∧ hdr.alg = "RS256" ∧ joseAlgUsed hdr.alg ["RS256"] = some "RS256" :=
  alg_pinned_to_allowlist.1 (.wellFormed ⟨some "K1", "RS256"⟩ plW 7) keyRS512W
    (AUDIENCE cfgW) (ISSUER_V1 cfgW) 1000 plW rfl

/-- C10: every exception raised inside verify_token's try block other
than a `JWTError` — `HTTPException`s included, hence the 503
fetch-failure and the distinct inner 401 rejections — is caught by the
final generic handler and re-raised as 401 "Authentication failed"; a
`JWTError` becomes 401 "Invalid or expired token"; and only the pre-try
configuration check escapes with status 500 and its original detail. -/
theorem exception_collapse (cfg : Config) (tok : Token) (now : Nat)
    (net : Nat → FetchResult) (st : CacheState) :
    (optTruthy cfg.tenant → optTruthy cfg.client →
       (∀ s d st1 fc1,
          verify_token_body cfg tok now net st 0 = (.error (.httpExc s d), st1, fc1) →
          verify_token cfg tok now net st
            = (.error (.httpExc 401 "Authentication failed"), st1, fc1))
       ∧ (∀ m st1 fc1,
          verify_token_body cfg tok now net st 0 = (.error (.otherExc m), st1, fc1) →
          verify_token cfg tok now net st
            = (.error (.httpExc 401 "Authentication failed"), st1, fc1))
       ∧ (∀ m st1 fc1,
          verify_token_body cfg tok now net st 0 = (.error (.jwtError m), st1, fc1) →
          verify_token cfg tok now net st
            = (.error (.httpExc 401 "Invalid or expired token"), st1, fc1)))
    ∧ ((¬ optTruthy cfg.tenant ∨ ¬ optTruthy cfg.client) →
       verify_token cfg tok now net st
         = (.error (.httpExc 500 "Server configuration error - Azure AD not configured"),
             st, 0)) := by
  constructor
  · intro hT hC
    refine ⟨fun s d st1 fc1 h => ?_, fun m st1 fc1 h => ?_, fun m st1 fc1 h => ?_⟩
    all_goals
      unfold verify_token
      rw [if_neg (by simp [hT, hC]), h]
      rfl
  · intro h
    unfold verify_token
    rw [if_pos h]

theorem exception_collapse_witness :
    verify_token cfgW tokW 1000 netFailW stEmptyW
      = (.error (.httpExc 401 "Authentication failed"), stEmptyW, 1)
    ∧ verify_token cfgW .malformed 1000 netW stEmptyW
      = (.error (.httpExc 401 "Invalid or expired token"), ⟨some jwksW, 4600⟩, 1)
    ∧ verify_token ⟨some "", some "c1"⟩ tokW 1000 netW stEmptyW
      = (.error (.httpExc 500 "Server configuration error - Azure AD not configured"),
          stEmptyW, 0) :=
  ⟨((exception_collapse cfgW tokW 1000 netFailW stEmptyW).1 (by decide) (by decide)).1
      503 "Service unavailable - unable to fetch signing keys" stEmptyW 1 rfl,
   ((exception_collapse cfgW .malformed 1000 netW stEmptyW).1 (by decide) (by decide)).2.2
      "Error decoding token headers." ⟨some jwksW, 4600⟩ 1 rfl,
   (exception_collapse ⟨some "", some "c1"⟩ tokW 1000 netW stEmptyW).2
      (Or.inl (by decide))⟩

/-- Helper: inversion of a successful issuer selection — the selected
expected issuer equals the token's unverified `iss` claim, which is one
of the two accepted issuer strings. -/
theorem issuerSelect_ok_inv (cfg : Config) (iss : Option String) (e : String)
    (h : issuerSelect cfg iss = .ok e) :
    iss = some e ∧ (iss = some (ISSUER_V1 cfg) ∨ iss = some (ISSUER_V2 cfg)) := by
  unfold issuerSelect at h
  by_cases h1 : iss = some (ISSUER_V1 cfg)
  · rw [if_pos h1] at h
    injection h with h'
    exact ⟨h'.symm ▸ h1, Or.inl h1⟩
  · rw [if_neg h1] at h
    by_cases h2 : iss = some (ISSUER_V2 cfg)
    · rw [if_pos h2] at h
      injection h with h'
      exact ⟨h'.symm ▸ h2, Or.inr h2⟩
    · rw [if_neg h2] at h
      exact Except.noConfusion h

/-- Helper: inversion of a successful verified decode — the result is
the token's own payload, and the header algorithm, signature, expiry,
audience and issuer checks all passed. -/
theorem joseVerifiedDecode_ok_inv (hdr : TokenHeader) (pl : TokenPayload)
    (sb : Nat) (key : SigningKey) (audience issuer : String) (now : Nat)
    (p : TokenPayload)
    (h : joseVerifiedDecode (.wellFormed hdr pl sb) key ["RS256"]
        audience issuer now = .ok p) :
    pl = p ∧ hdr.alg = "RS256" ∧ sigValid sb key ∧ ¬ p.exp < now
    ∧ p.aud = some audience ∧ p.iss = some issuer := by
  cases halg : joseAlgUsed hdr.alg ["RS256"] with
  | none =>
    simp only [joseVerifiedDecode, halg] at h
    exact Except.noConfusion h
  | some a =>
    simp only [joseVerifiedDecode, halg] at h
    have ha : hdr.alg = "RS256" := by
      unfold joseAlgUsed at halg
      by_cases hm : hdr.alg ∈ ["RS256"]
      · simpa using hm
      · rw [if_neg hm] at halg; exact Option.noConfusion halg
    split_ifs at h with h1 h2 h3 h4
    all_goals
      first
        | exact Except.noConfusion h
        | (injection h with h'; subst h';
           exact ⟨rfl, ha, by simpa using h1, h2, by simpa using h3,
             by simpa using h4⟩)

/-- C6: on every successful verification the returned claims are the
payload of the fully verified decode: the token is well formed, its
payload is exactly the returned one, an expected issuer was selected
from the unverified `iss` claim and then enforced, and the verified
decode — signature, header algorithm RS256, expiry, audience, issuer —
passed on some key. On every failing verification the outcome is an
`Except.error` carrying no claims, so no partially populated claims can
ever be returned. -/
theorem success_claims_fully_verified (cfg : Config) (tok : Token) (now : Nat)
    (net : Nat → FetchResult) (st : CacheState) (p : TokenPayload)
    (st1 : CacheState) (fc1 : Nat)
    (h : verify_token cfg tok now net st = (.ok p, st1, fc1)) :
    ∃ hdr sb key e,
      tok = .wellFormed hdr p sb
      ∧ issuerSelect cfg p.iss = .ok e
      ∧ p.iss = some e
      ∧ joseVerifiedDecode tok key ["RS256"] (AUDIENCE cfg) e now = .ok p
      ∧ sigValid sb key
      ∧ hdr.alg = "RS256"
      ∧ ¬ p.exp < now
      ∧ p.aud = some (AUDIENCE cfg)
      ∧ (p.iss = some (ISSUER_V1 cfg) ∨ p.iss = some (ISSUER_V2 cfg)) := by
  unfold verify_token at h
  by_cases hcfg : ¬ optTruthy cfg.tenant ∨ ¬ optTruthy cfg.client
  · rw [if_pos hcfg] at h
    simp at h
  · rw [if_neg hcfg] at h
    rcases hb : verify_token_body cfg tok now net st 0 with ⟨r, stb, fcb⟩
    rw [hb] at h
    cases r with
    | error e => simp at h
    | ok q =>
      simp only [Prod.mk.injEq, Except.ok.injEq] at h
      obtain ⟨hq, hst, hfc⟩ := h
      subst hq
      unfold verify_token_body at hb
      rcases hg : get_signing_keys now net st 0 with ⟨rg, stg, fcg⟩
      rw [hg] at hb
      cases rg with
      | error e => simp at hb
      | ok jwks =>
        cases tok with
        | malformed => simp [get_unverified_header] at hb
        | wellFormed hdr pl sb =>
          simp only [get_unverified_header] at hb
          by_cases hk : optTruthy hdr.kid
          · rw [if_neg (by simpa using hk)] at hb
            rcases hl : lookupSigningKey (pyStr hdr.kid) now net jwks stg fcg
              with ⟨rl, stl, fcl⟩
            rw [hl] at hb
            cases rl with
            | error e => simp at hb
            | ok key =>
              simp only [joseUnverifiedDecode] at hb
              cases his : issuerSelect cfg pl.iss with
              | error e =>
                simp only [his] at hb
                simp at hb
              | ok eiss =>
                simp only [his] at hb
                cases hd : joseVerifiedDecode (.wellFormed hdr pl sb) key ["RS256"]
                    (AUDIENCE cfg) eiss now with
                | error e2 =>
                  simp only [hd] at hb
                  simp at hb
                | ok q2 =>
                  simp only [hd] at hb
                  simp only [Prod.mk.injEq, Except.ok.injEq] at hb
                  obtain ⟨hq2, _, _⟩ := hb
                  obtain ⟨hplp, ha, hsig, hexp, haud, hisse⟩ :=
                    joseVerifiedDecode_ok_inv hdr pl sb key (AUDIENCE cfg) eiss now q2 hd
                  subst hq2
                  subst hplp
                  obtain ⟨hie, hior⟩ := issuerSelect_ok_inv cfg pl.iss eiss his
                  exact ⟨hdr, sb, key, eiss, rfl, his, hie, hd, hsig, ha, hexp, haud, hior⟩
          · rw [if_pos (by simpa using hk)] at hb
            simp at hb

theorem success_claims_fully_verified_witness :
    ∃ hdr sb key e,
      tokW = .wellFormed hdr plW sb
      ∧ issuerSelect cfgW plW.iss = .ok e
      ∧ plW.iss = some e
      ∧ joseVerifiedDecode tokW key ["RS256"] (AUDIENCE cfgW) e 1000 = .ok plW
      ∧ sigValid sb key
      ∧ hdr.alg = "RS256"
      ∧ ¬ plW.exp < 1000
      ∧ plW.aud = some (AUDIENCE cfgW)
      ∧ (plW.iss = some (ISSUER_V1 cfgW) ∨ plW.iss = some (ISSUER_V2 cfgW)) :=
  success_claims_fully_verified cfgW tokW 1000 netW stFreshW plW stFreshW 0 rfl

end Auth


